import Mathlib

/-!
# imzo_bot: conversation state machine and response poller

A shallow embedding of `main.go` (the bot: sessions, the per-message dispatch of
`Bot.Run`, `doLogin`, `handleQuestion`, `pollFinalAndReply`) and of
`internal/config/config.go` and `internal/imzo/client.go` (`Load`, `NewClient`,
`Client.PollFinal`).

Modelling conventions
* Go `string` is `String`; an `error` is the `String` its `Error()` prints.
* The session map `map[int64]*session` is a function `Int → Option session`.
* Everything the bot does to the outside world is recorded, in order, as a list of `Event`s.
* The outside world (what an HTTP call returns, which ready case a `select` takes, how long
  a call lasts) is an explicit argument of the function that consults it.
* `time.Duration` is a number of nanoseconds.
* Logging (`log.Printf`, `fmt.Println`) is not recorded.
-/

namespace ImzoBot

/-! ## The pieces of the Go standard library the code uses -/

/-- The white space of `unicode.IsSpace`. -/
def isSpace (r : Char) : Bool :=
  let n := r.toNat
  n == 0x09 || n == 0x0A || n == 0x0B || n == 0x0C || n == 0x0D || n == 0x20 ||
  n == 0x85 || n == 0xA0 || n == 0x1680 || (0x2000 ≤ n && n ≤ 0x200A) ||
  n == 0x2028 || n == 0x2029 || n == 0x202F || n == 0x205F || n == 0x3000

/-- Go `strings.TrimSpace`: drop leading and trailing white space. -/
def TrimSpace (s : String) : String :=
  ⟨((s.data.dropWhile isSpace).reverse.dropWhile isSpace).reverse⟩

/-- Go `strings.HasPrefix`. -/
def HasPrefix (s pre : String) : Bool :=
  pre.data.isPrefixOf s.data

/-- Go `strings.TrimRight(s, "/")`: drop the trailing slashes. -/
def TrimRightSlash (s : String) : String :=
  ⟨(s.data.reverse.dropWhile (fun c => c == '/')).reverse⟩

/-- One second as a `time.Duration` (nanoseconds). -/
def Second : Int := 1000000000

/-- Wrap-around of `int64` arithmetic. -/
def wrapInt64 (x : Int) : Int :=
  (x + 9223372036854775808) % 18446744073709551616 - 9223372036854775808

/-! ## main.go: payloads, sessions, the bot -/

/-- The `Config` of main.go (the durations in nanoseconds). -/
structure Config where
  TelegramToken : String
  ImzoAPIBase : String
  ImzoChatRoomID : String
  GatewayBase : String
  GatewayAuthBearer : String
  PollInterval : Int
  PollTimeout : Int
  HTTPTimeout : Int
deriving DecidableEq, Repr

structure loginReq where
  Login : String
  Password : String
deriving DecidableEq, Repr

structure loginResp where
  Message : String
  Token : String
deriving DecidableEq, Repr

structure askReq where
  ChatRoomID : String
  Request : String
deriving DecidableEq, Repr

structure askRespOK where
  ID : String
  Message : String
deriving DecidableEq, Repr

structure askRespErr where
  Message : String
  Status : String
deriving DecidableEq, Repr

structure finalResp where
  Response : String
deriving DecidableEq, Repr

inductive userState where
  | stateIdle
  | stateAwaitLogin
  | stateAwaitPassword
  | stateReady
deriving DecidableEq, Repr

open userState

structure session where
  State : userState
  LoginCache : String
  Token : String
deriving DecidableEq, Repr

/-- The bot: its configuration and the session map, by Telegram chat ID. -/
structure Bot where
  cfg : Config
  sess : Int → Option session

/-- What the bot does to the outside world. -/
inductive Event where
  /-- `b.reply(chatID, text)`: a message handed to `bot.Send`. -/
  | reply (chatID : Int) (text : String)
  /-- The `POST /users/login` of `doLogin`. -/
  | loginRequest (endpoint : String) (payload : loginReq)
  /-- The `POST /ask` of `handleQuestion`, with its `Authorization` header. -/
  | askRequest (endpoint : String) (authorization : String) (payload : askReq)
  /-- A call of `time.Sleep`. -/
  | sleep (d : Int)
  /-- The statement `go b.pollFinalAndReply(chatID, userToken, id)`. -/
  | spawnPoll (chatID : Int) (userToken : String) (id : String)
  /-- The `GET /get/gpt/responce?id=...` of a poller, with its `Authorization` header. -/
  | pollRequest (endpoint : String) (id : String) (authorization : String)
deriving DecidableEq, Repr

/-- What the backend does with the login request of `doLogin`. -/
inductive LoginOutcome where
  /-- `http.NewRequest` fails. -/
  | newRequestErr (err : String)
  /-- `b.cli.Do` fails. -/
  | doErr (err : String)
  /-- A response arrives; `body` is what decoding it into a `loginResp` gives. -/
  | response (StatusCode : Int) (Status : String) (body : Except String loginResp)

/-- What the backend does with the ask request of `handleQuestion`. The request itself is taken
to be built: the code drops the error of `http.NewRequest`. -/
inductive AskOutcome where
  /-- `b.cli.Do` fails. -/
  | doErr (err : String)
  /-- A response arrives; `bodyErr` is what decoding it into an `askRespErr` gives and `bodyOK`
  what decoding it into an `askRespOK` gives. -/
  | response (StatusCode : Int) (Status : String)
      (bodyErr : Except String askRespErr) (bodyOK : Except String askRespOK)

/-- Go `newBot`: no session yet. -/
def newBot (cfg : Config) : Bot :=
  { cfg := cfg, sess := fun _ => none }

/-- Go `Bot.getSession`: the session of the chat, created with `stateIdle` when absent. -/
def Bot.getSession (b : Bot) (chatID : Int) : Bot × session :=
  match b.sess chatID with
  | some s => (b, s)
  | none =>
    let s : session := { State := stateIdle, LoginCache := "", Token := "" }
    ({ b with sess := Function.update b.sess chatID (some s) }, s)

/-- Go `Bot.setState`. -/
def Bot.setState (b : Bot) (chatID : Int) (st : userState) : Bot :=
  let (b1, s) := b.getSession chatID
  { b1 with sess := Function.update b1.sess chatID (some { s with State := st }) }

/-- Go `Bot.setToken`. -/
def Bot.setToken (b : Bot) (chatID : Int) (token : String) : Bot :=
  let (b1, s) := b.getSession chatID
  { b1 with sess := Function.update b1.sess chatID (some { s with Token := token }) }

/-- Go `Bot.setLogin`. -/
def Bot.setLogin (b : Bot) (chatID : Int) (login : String) : Bot :=
  let (b1, s) := b.getSession chatID
  { b1 with sess := Function.update b1.sess chatID (some { s with LoginCache := login }) }

/-- Go `Bot.handleStart`. -/
def Bot.handleStart (b : Bot) (chatID : Int) : Bot × List Event :=
  (b.setState chatID stateAwaitLogin,
   [Event.reply chatID
      "Assalomu alaykum! Telefon raqamingizni yuboring (masalan: +998901234567):"])

/-- Go `Bot.doLogin`: the bot afterwards, the error returned (`none` is `nil`) and the
events. -/
def Bot.doLogin (b : Bot) (chatID : Int) (login password : String) (o : LoginOutcome) :
    Bot × Option String × List Event :=
  let endpoint := TrimRightSlash b.cfg.ImzoAPIBase ++ "/users/login"
  let payload : loginReq := { Login := login, Password := password }
  match o with
  | .newRequestErr err => (b, some err, [])
  | .doErr err => (b, some err, [Event.loginRequest endpoint payload])
  | .response StatusCode Status body =>
    if StatusCode ≠ 200 then
      (b, some ("unexpected status: " ++ Status), [Event.loginRequest endpoint payload])
    else
      match body with
      | .error err => (b, some err, [Event.loginRequest endpoint payload])
      | .ok lr =>
        if lr.Token = "" then
          (b, some "empty token in login response", [Event.loginRequest endpoint payload])
        else
          (b.setToken chatID lr.Token, none, [Event.loginRequest endpoint payload])

/-- The text appended to a rejection in the 400 branch of `handleQuestion`. -/
def newQuestionSuffix : String := "\n\n*Yangi savolingizni yuboring.*"

/-- The text that stands for an empty rejection in the 400 branch of `handleQuestion`. -/
def defaultRejection : String := "Uzr, savolingizni tushunmadim. Qayta yuboring."

/-- Go `Bot.handleQuestion`: it touches no session, so only its events are returned. The model
starts where the request is built: a base URL that `http.NewRequest` refuses, on which the code
dereferences a nil request, is not among the outcomes. -/
def Bot.handleQuestion (b : Bot) (chatID : Int) (token question : String) (o : AskOutcome) :
    List Event :=
  let endpoint := TrimRightSlash b.cfg.ImzoAPIBase ++ "/ask"
  let payload : askReq := { ChatRoomID := b.cfg.ImzoChatRoomID, Request := question }
  let req := Event.askRequest endpoint token payload
  match o with
  | .doErr err => [req, Event.reply chatID ("Xatolik: " ++ err)]
  | .response StatusCode Status bodyErr bodyOK =>
    if StatusCode = 400 then
      match bodyErr with
      | .error err =>
        [req, Event.reply chatID ("400 xatolik, lekin JSON o\x27qilmadi: " ++ err)]
      | .ok er =>
        let Message := if er.Message = "" then defaultRejection else er.Message
        [req, Event.reply chatID (Message ++ newQuestionSuffix)]
    else if StatusCode ≠ 200 then
      [req, Event.reply chatID ("Unexpected status from /ask: " ++ Status)]
    else
      match bodyOK with
      | .error err => [req, Event.reply chatID ("JSON xatosi (/ask): " ++ err)]
      | .ok ok =>
        [req] ++
        (if TrimSpace ok.Message ≠ "" then [Event.reply chatID ok.Message] else []) ++
        [Event.sleep (10 * Second), Event.spawnPoll chatID token ok.ID]

/-- The `Message` of a Telegram update, as far as the bot reads it. -/
structure Message where
  ChatID : Int
  Text : String
deriving DecidableEq, Repr

/-- A Telegram update; `Message` is `none` for a non-message update. -/
structure Update where
  Message : Option Message
deriving DecidableEq, Repr

/-- The body of `case u := <-updates` in `Bot.Run`: one update handled, with the outcome of the
login call and of the ask call should the bot make one. -/
def Bot.handleUpdate (b : Bot) (u : Update) (lo : LoginOutcome) (ao : AskOutcome) :
    Bot × List Event :=
  match u.Message with
  | none => (b, [])
  | some m =>
    let chatID := m.ChatID
    let text := TrimSpace m.Text
    if HasPrefix text "/start" then
      b.handleStart chatID
    else
      let (b1, s) := b.getSession chatID
      match s.State with
      | stateAwaitLogin =>
        let b2 := b1.setLogin chatID text
        (b2.setState chatID stateAwaitPassword, [Event.reply chatID "Parolni yuboring:"])
      | stateAwaitPassword =>
        match b1.doLogin chatID s.LoginCache text lo with
        | (b2, some err, evs) =>
          (b2.setState chatID stateIdle,
           evs ++ [Event.reply chatID
             ("Login xato: " ++ err ++ "\nQayta urinib ko\x27ring: /start")])
        | (b2, none, evs) =>
          (b2.setState chatID stateReady,
           evs ++ [Event.reply chatID "✅ Muvaffaqiyatli! Endi savolingizni yuboring."])
      | stateReady =>
        if s.Token = "" then
          (b1.setState chatID stateIdle,
           [Event.reply chatID "Avval /start orqali login qiling."])
        else
          (b1, b1.handleQuestion chatID s.Token text ao)
      | stateIdle => b1.handleStart chatID

/-- What the `select` of `Bot.Run` receives in one turn of its loop. -/
inductive RunSelect where
  /-- The context is done: `Run` returns. -/
  | ctxDone
  /-- An update arrives, with the outcomes of the backend calls its handling may make. -/
  | update (u : Update) (lo : LoginOutcome) (ao : AskOutcome)

/-- Go `Bot.Run` on the sequence of what its `select` receives: the bot and the events once the
sequence is consumed or the context is done. -/
def Bot.Run (b : Bot) : List RunSelect → Bot × List Event
  | [] => (b, [])
  | .ctxDone :: _ => (b, [])
  | .update u lo ao :: rest =>
    let r1 := b.handleUpdate u lo ao
    let r2 := r1.1.Run rest
    (r2.1, r1.2 ++ r2.2)

/-- The session of a chat as `getSession` returns it. -/
def Bot.sessionOf (b : Bot) (chatID : Int) : session :=
  (b.getSession chatID).2

/-! ## main.go: the response poller

Time is counted in nanoseconds from the moment the poller starts. A ticker of period `P` fires
at `P, 2P, 3P, ...`; its channel holds one tick, so a tick that fires while another waits is
dropped. The context of the poller is done once it is cancelled or its deadline is reached.
When both cases of the `select` are ready Go takes one of them at random: that choice, the delay
before the goroutine runs, the outcome of the request and the time the tick body takes are given
by a `PollTurn`, one for each turn of the loop. -/

/-- What the backend does with one poll request. -/
inductive PollOutcome where
  /-- `http.NewRequest` fails. -/
  | newRequestErr (err : String)
  /-- `cli.Do` fails. -/
  | doErr (err : String)
  /-- A response arrives; `body` is what decoding it into a `finalResp` gives. -/
  | response (StatusCode : Int) (Status : String) (body : Except String finalResp)

/-- The world around one turn of a polling loop. -/
structure PollTurn where
  /-- Nanoseconds between the moment a case of the `select` is ready and the moment the
  goroutine runs and takes one. -/
  wake : Nat
  /-- The case the `select` takes when both are ready: `true` for `ticker.C`. -/
  pickTick : Bool
  /-- The outcome of the poll request of this turn, should one be made. -/
  outcome : PollOutcome
  /-- Nanoseconds the body of the tick case takes. -/
  elapsed : Nat

/-- The case a `select` over `ctx.Done()` and `ticker.C` takes, and when. -/
inductive Selected where
  | done (t : Nat)
  | tick (t : Nat)
deriving DecidableEq, Repr

/-- Whether `ctx.Done()` is closed at time `t`: the context was cancelled, or it has a deadline
`doneAt` and that is reached. -/
def ctxIsDone (doneAt : Option Nat) (cancelled : Bool) (t : Nat) : Bool :=
  cancelled ||
    (match doneAt with
     | some d => decide (d ≤ t)
     | none => false)

/-- The moment the `select` of a polling loop takes a case, when the loop reaches it at time
`now` with the ticker's next tick firing (or having fired) at `next`: it blocks until a case is
ready, and the goroutine runs `wake` later. -/
def selectTime (doneAt : Option Nat) (cancelled : Bool) (next now wake : Nat) : Nat :=
  (if ctxIsDone doneAt cancelled now || decide (next ≤ now) then now
   else
     match doneAt with
     | some d => min d next
     | none => next) + wake

/-- The `select` of a polling loop: at `selectTime` it takes a ready case, `pickTick` deciding
when both are ready. -/
def selectCase (doneAt : Option Nat) (cancelled : Bool) (next now wake : Nat)
    (pickTick : Bool) : Selected :=
  let t := selectTime doneAt cancelled next now wake
  if ctxIsDone doneAt cancelled t && decide (next ≤ t) then
    (if pickTick then Selected.tick t else Selected.done t)
  else if ctxIsDone doneAt cancelled t then Selected.done t
  else Selected.tick t

/-- The first firing of a ticker of period `P` after time `t`. -/
def nextTick (P t : Nat) : Nat :=
  (t / P + 1) * P

/-- What a run of `pollFinalAndReply` did on the turns it was given. -/
structure PollRun where
  events : List Event
  /-- Whether the function returned; `false` when the turns end with the loop still going. -/
  returned : Bool
  /-- The number of ticks received from `ticker.C`. -/
  ticks : Nat
  /-- The time of the return, or the time reached when the turns end. -/
  now : Nat
deriving DecidableEq, Repr

/-- The body of `case <-ticker.C` in `pollFinalAndReply`: its events, and whether it called
`cancel()`. -/
def Bot.pollTick (_b : Bot) (chatID : Int) (endpoint id authHeader : String)
    (o : PollOutcome) : List Event × Bool :=
  match o with
  | .newRequestErr _ => ([], false)
  | .doErr _ => ([Event.pollRequest endpoint id authHeader], false)
  | .response StatusCode _ body =>
    if StatusCode ≠ 200 then
      ([Event.pollRequest endpoint id authHeader], false)
    else
      match body with
      | .error _ => ([Event.pollRequest endpoint id authHeader], false)
      | .ok fr =>
        if TrimSpace fr.Response ≠ "" then
          ([Event.pollRequest endpoint id authHeader, Event.reply chatID fr.Response], true)
        else
          ([Event.pollRequest endpoint id authHeader], false)

/-- The `for` loop of `pollFinalAndReply` from time `now`, with the ticker's next tick at `next`
and the context cancelled or not, the deadline of the context at `D`. -/
def Bot.pollLoop (b : Bot) (chatID : Int) (endpoint id authHeader : String) (P D : Nat) :
    Nat → Nat → Bool → List PollTurn → PollRun
  | now, _, _, [] => { events := [], returned := false, ticks := 0, now := now }
  | now, next, cancelled, turn :: rest =>
    match selectCase (some D) cancelled next now turn.wake turn.pickTick with
    | .done t => { events := [], returned := true, ticks := 0, now := t }
    | .tick t =>
      let body := b.pollTick chatID endpoint id authHeader turn.outcome
      let r := b.pollLoop chatID endpoint id authHeader P D
        (t + turn.elapsed) (nextTick P t) (cancelled || body.2) rest
      { events := body.1 ++ r.events, returned := r.returned, ticks := r.ticks + 1,
        now := r.now }

/-- Go `Bot.pollFinalAndReply` on the turns of its loop; `none` when `time.NewTicker` panics on a
period that is not positive. -/
def Bot.pollFinalAndReply (b : Bot) (chatID : Int) (userToken id : String)
    (turns : List PollTurn) : Option PollRun :=
  let endpoint := TrimRightSlash b.cfg.ImzoAPIBase ++ "/get/gpt/responce"
  let authHeader :=
    if TrimSpace b.cfg.GatewayAuthBearer = "" then userToken
    else TrimSpace b.cfg.GatewayAuthBearer
  if b.cfg.PollInterval ≤ 0 then none
  else
    some (b.pollLoop chatID endpoint id authHeader b.cfg.PollInterval.toNat
      b.cfg.PollTimeout.toNat 0 b.cfg.PollInterval.toNat false turns)

/-- Go `mustConfig` on the environment `env` (`os.Getenv`), `ParseDuration` being
`time.ParseDuration`; `none` when `log.Fatal` ends the process. -/
def mustConfig (env : String → String) (ParseDuration : String → Option Int) :
    Option Config :=
  if env "TELEGRAM_BOT_TOKEN" = "" then none
  else if env "IMZO_CHAT_ROOM_ID" = "" then none
  else
    let duration (key : String) (fallback : Int) : Int :=
      let d := if env key ≠ "" then (ParseDuration (env key ++ "s")).getD 0 else 0
      if d = 0 then fallback else d
    some
      { TelegramToken := env "TELEGRAM_BOT_TOKEN"
        ImzoAPIBase :=
          if env "IMZO_API_BASE" = "" then "https://imzo-ai.uzjoylar.uz"
          else env "IMZO_API_BASE"
        ImzoChatRoomID := env "IMZO_CHAT_ROOM_ID"
        GatewayBase :=
          if env "GATEWAY_BASE" = "" then "http://localhost:8080" else env "GATEWAY_BASE"
        GatewayAuthBearer := env "GATEWAY_AUTH_BEARER"
        PollInterval := duration "POLL_INTERVAL_SECONDS" (3 * Second)
        PollTimeout := duration "POLL_TIMEOUT_SECONDS" (120 * Second)
        HTTPTimeout := duration "HTTP_TIMEOUT_SECONDS" (20 * Second) }

/-! ## internal/config/config.go -/

namespace config

/-- The `Config` of package config. -/
structure Config where
  TelegramBotToken : String
  ImzoAPIBase : String
  ImzoChatRoomID : String
  PollIntervalSec : Int
  PollTimeoutSec : Int
  GatewayBase : String
  GatewayAuthBearer : String
  HTTPTimeoutSeconds : Int
deriving DecidableEq, Repr

/-- Go `strconv.Atoi`: an optional sign and decimal digits, within the range of `int`. -/
def Atoi (s : String) : Option Int :=
  let parts : Bool × List Char :=
    match s.data with
    | '+' :: ds => (false, ds)
    | '-' :: ds => (true, ds)
    | ds => (false, ds)
  if parts.2 = [] ∨ parts.2.all Char.isDigit = false then none
  else
    let n : Int := (parts.2.foldl (fun acc d => 10 * acc + (d.toNat - 48)) 0 : Nat)
    let v : Int := if parts.1 then -n else n
    if v < -9223372036854775808 ∨ 9223372036854775807 < v then none else some v

/-- Go `getEnv`. -/
def getEnv (env : String → String) (key defaultVal : String) : String :=
  if env key = "" then defaultVal else env key

/-- Go `getEnvAsInt`. -/
def getEnvAsInt (env : String → String) (key : String) (defaultVal : Int) : Int :=
  if env key = "" then defaultVal
  else
    match Atoi (env key) with
    | none => defaultVal
    | some val => val

/-- Go `Load` on the environment `env` (`os.Getenv`). -/
def Load (env : String → String) : Config :=
  { TelegramBotToken := getEnv env "TELEGRAM_BOT_TOKEN" ""
    ImzoAPIBase := getEnv env "IMZO_API_BASE" ""
    ImzoChatRoomID := getEnv env "IMZO_CHAT_ROOM_ID" ""
    GatewayBase := getEnv env "GATEWAY_BASE" "http://localhost:8080"
    GatewayAuthBearer := getEnv env "GATEWAY_AUTH_BEARER" ""
    PollIntervalSec := getEnvAsInt env "POLL_INTERVAL_SECONDS" 3
    PollTimeoutSec := getEnvAsInt env "POLL_TIMEOUT_SECONDS" 120
    HTTPTimeoutSeconds := getEnvAsInt env "HTTP_TIMEOUT_SECONDS" 20 }

end config

/-! ## internal/imzo/client.go -/

namespace imzo

/-- The `Client` of package imzo; `Timeout` is the timeout of its `http.Client`. -/
structure Client where
  cfg : config.Config
  Timeout : Int
deriving DecidableEq, Repr

/-- Go `NewClient`: the timeout is `time.Duration(cfg.HTTPTimeoutSeconds) * time.Second`. -/
def NewClient (cfg : config.Config) : Client :=
  { cfg := cfg, Timeout := wrapInt64 (cfg.HTTPTimeoutSeconds * Second) }

/-- The period `Client.PollFinal` gives its ticker: `time.Duration(c.cfg.PollIntervalSec)`. -/
def Client.tickerPeriod (c : Client) : Int :=
  c.cfg.PollIntervalSec

/-- The context a caller hands to `Client.PollFinal`: when it is done, counted in nanoseconds
from the call (`none`: never), and the error `ctx.Err()` gives then. -/
structure Context where
  doneAt : Option Nat
  err : String
deriving DecidableEq, Repr

/-- What a run of `Client.PollFinal` did on the turns it was given. -/
structure FinalRun where
  events : List Event
  /-- The values returned, a string and an error (`none` is `nil`); `none` when the turns end
  with the loop still going. -/
  result : Option (String × Option String)
  /-- Whether the run ended in a panic (a nil request dereferenced). -/
  panicked : Bool
  /-- The number of ticks received from `ticker.C`. -/
  ticks : Nat
deriving DecidableEq, Repr

/-- The body of `case <-ticker.C` in `Client.PollFinal` once the request is built: its events.
The call `ctx.Done()` in its last branch only returns the channel of the context. -/
def Client.pollTick (_c : Client) (endpoint id authHeader : String) (o : PollOutcome) :
    List Event :=
  match o with
  | .newRequestErr _ => []
  | .doErr _ => [Event.pollRequest endpoint id authHeader]
  | .response StatusCode _ body =>
    if StatusCode ≠ 200 then
      [Event.pollRequest endpoint id authHeader]
    else
      match body with
      | .error _ => [Event.pollRequest endpoint id authHeader]
      | .ok fr =>
        if TrimSpace fr.Response ≠ "" then
          [Event.pollRequest endpoint id authHeader]
        else
          [Event.pollRequest endpoint id authHeader]

/-- The `for` loop of `Client.PollFinal` from time `now`, with the ticker's next tick at
`next`. -/
def Client.pollLoop (c : Client) (ctx : Context) (endpoint id authHeader : String) (P : Nat) :
    Nat → Nat → List PollTurn → FinalRun
  | _, _, [] => { events := [], result := none, panicked := false, ticks := 0 }
  | now, next, turn :: rest =>
    match selectCase ctx.doneAt false next now turn.wake turn.pickTick with
    | .done _ =>
      { events := [], result := some ("", some ctx.err), panicked := false, ticks := 0 }
    | .tick t =>
      match turn.outcome with
      | .newRequestErr _ =>
        { events := [], result := none, panicked := true, ticks := 1 }
      | o =>
        let r := c.pollLoop ctx endpoint id authHeader P (t + turn.elapsed) (nextTick P t) rest
        { events := c.pollTick endpoint id authHeader o ++ r.events, result := r.result,
          panicked := r.panicked, ticks := r.ticks + 1 }

/-- Go `Client.PollFinal` on the turns of its loop; `none` when `time.NewTicker` panics on a
period that is not positive. -/
def Client.PollFinal (c : Client) (ctx : Context) (userToken id : String)
    (turns : List PollTurn) : Option FinalRun :=
  let endpoint := TrimRightSlash c.cfg.GatewayBase ++ "/get/gpt/responce"
  let authHeader :=
    if TrimSpace c.cfg.GatewayAuthBearer = "" then userToken else c.cfg.GatewayAuthBearer
  if c.tickerPeriod ≤ 0 then none
  else
    some (c.pollLoop ctx endpoint id authHeader c.tickerPeriod.toNat 0 c.tickerPeriod.toNat
      turns)

end imzo

/-! ## Notions the properties are stated with -/

/-- The token a login attempt issues: the response has status 200, its body decodes and its
token is not empty. Otherwise `none`: the login fails. -/
def LoginOutcome.issuedToken : LoginOutcome → Option String
  | .response StatusCode _ (.ok lr) =>
    if StatusCode = 200 ∧ lr.Token ≠ "" then some lr.Token else none
  | _ => none

/-- The transition table of the conversation, as the specification words it, on the trimmed
text of a message: `/start` leads to `stateAwaitLogin` from any state; otherwise `stateIdle`
goes to `stateAwaitLogin`, `stateAwaitLogin` to `stateAwaitPassword` with the text cached as the
login, `stateAwaitPassword` to `stateReady` with the issued token stored when the login succeeds
and to `stateIdle` when it fails, and `stateReady` stays when a token is present and goes to
`stateIdle` when it is absent. -/
def tableNext (text : String) (s : session) (issued : Option String) : session :=
  if HasPrefix text "/start" then { s with State := stateAwaitLogin }
  else
    match s.State with
    | stateIdle => { s with State := stateAwaitLogin }
    | stateAwaitLogin => { s with State := stateAwaitPassword, LoginCache := text }
    | stateAwaitPassword =>
      match issued with
      | some token => { s with State := stateReady, Token := token }
      | none => { s with State := stateIdle }
    | stateReady => if s.Token ≠ "" then s else { s with State := stateIdle }

/-- Every session of the bot that is in `stateReady` holds a token. -/
def ReadyHasToken (b : Bot) : Prop :=
  ∀ c s, b.sess c = some s → s.State = stateReady → s.Token ≠ ""

/-- A poll outcome that carries an answer: status 200, a body that decodes, and a `responce`
that is not blank. -/
def PollOutcome.isAnswer : PollOutcome → Bool
  | .response StatusCode _ (.ok fr) =>
    decide (StatusCode = 200) && decide (TrimSpace fr.Response ≠ "")
  | _ => false

/-- Whether an event is a reply sent to a chat. -/
def Event.isReply : Event → Bool
  | .reply _ _ => true
  | _ => false

/-! ## Concrete inputs -/

/-- A configuration with the default durations of `mustConfig`. -/
def exampleConfig : Config :=
  { TelegramToken := "bot-token"
    ImzoAPIBase := "https://imzo-ai.uzjoylar.uz"
    ImzoChatRoomID := "room-1"
    GatewayBase := "http://localhost:8080"
    GatewayAuthBearer := ""
    PollInterval := 3 * Second
    PollTimeout := 120 * Second
    HTTPTimeout := 20 * Second }

/-- A text message of chat 7. -/
def textFrom7 (text : String) : Update :=
  { Message := some { ChatID := 7, Text := text } }

/-- A login outcome for the turns that make no login call. -/
def loginUnused : LoginOutcome := .doErr "unused"

/-- An ask outcome for the turns that make no ask call. -/
def askUnused : AskOutcome := .doErr "unused"

/-- The backend accepts the login and issues the token `T`. -/
def loginAccepted : LoginOutcome :=
  .response 200 "200 OK" (.ok { Message := "ok", Token := "T" })

/-- The backend refuses the login. -/
def loginRefused : LoginOutcome :=
  .response 401 "401 Unauthorized" (.error "unexpected end of JSON input")

/-- Chat 7 sends `/start` and its phone number. -/
def enterLogin : List RunSelect :=
  [.update (textFrom7 "/start") loginUnused askUnused,
   .update (textFrom7 "+998901234567") loginUnused askUnused]

/-- Chat 7 logs in with success. -/
def logIn : List RunSelect :=
  enterLogin ++ [.update (textFrom7 "secret") loginAccepted askUnused]

/-- Chat 7 logs in, then sends `/start` again. -/
def logInThenStart : List RunSelect :=
  logIn ++ [.update (textFrom7 "/start") loginUnused askUnused]

/-- Chat 7 sends `/start`, its phone number and a password the backend refuses. -/
def logInRefused : List RunSelect :=
  enterLogin ++ [.update (textFrom7 "wrongpass") loginRefused askUnused]

/-- The bot when chat 7 has logged in. -/
def readyBot : Bot :=
  ((newBot exampleConfig).Run logIn).1

/-- The bot when chat 7 has sent its phone number. -/
def awaitingPasswordBot : Bot :=
  ((newBot exampleConfig).Run enterLogin).1

/-- The backend answers `hi there` at once, with no job id. -/
def askImmediate : AskOutcome :=
  .response 200 "200 OK" (.error "unused") (.ok { ID := "", Message := "hi there" })

/-- The backend rejects the question with the message `bad question`. -/
def askRejected : AskOutcome :=
  .response 400 "400 Bad Request" (.ok { Message := "bad question", Status := "error" })
    (.error "unused")

/-- A poll response that carries the final answer. -/
def pollAnswer : PollOutcome :=
  .response 200 "200 OK" (.ok { Response := "the answer" })

/-- A poll response with no answer yet. -/
def pollEmpty : PollOutcome :=
  .response 200 "200 OK" (.ok { Response := "" })

/-- Three turns of a poller with a period of 3 s: the request of the first tick (at 3 s) takes
4 s and brings the answer, so the tick of 6 s waits when the loop comes back to its `select` at
7 s with the context cancelled; the `select` takes that tick, and the backend answers again. -/
def raceTurns : List PollTurn :=
  [{ wake := 0, pickTick := true, outcome := pollAnswer, elapsed := 4000000000 },
   { wake := 0, pickTick := true, outcome := pollAnswer, elapsed := 1000000000 },
   { wake := 0, pickTick := true, outcome := pollEmpty, elapsed := 0 }]

/-- A world in which the backend never has an answer, a request takes 50 ms and the `select`
takes `ctx.Done()` when both cases are ready. -/
def quietWorld : Nat → PollTurn := fun _ =>
  { wake := 0, pickTick := false, outcome := pollEmpty, elapsed := 50000000 }

/-- A turn in which the `select` prefers the tick, the backend has no answer yet and the request
lasts 4 s, more than the period of 3 s. -/
def busyTurn : PollTurn :=
  { wake := 0, pickTick := true, outcome := pollEmpty, elapsed := 4000000000 }

/-- Thirty-two busy turns: with a period of 3 s the ticks are received at 3 s, 7 s, ..., 127 s. -/
def busyTurns : List PollTurn :=
  List.replicate 32 busyTurn

/-- The configuration `mustConfig` builds when `POLL_INTERVAL_SECONDS` is `-1`. -/
def negativeIntervalConfig : Config :=
  { exampleConfig with PollInterval := -1 * Second }

/-- An empty environment: `os.Getenv` gives the empty string for every key. -/
def noEnv : String → String := fun _ => ""

/-- An environment with the two required variables of `mustConfig` only. -/
def requiredEnv : String → String := fun key =>
  if key = "TELEGRAM_BOT_TOKEN" then "bot-token"
  else if key = "IMZO_CHAT_ROOM_ID" then "room-1"
  else ""

/-- A context with a deadline 100 ms after the call. -/
def shortContext : imzo.Context :=
  { doneAt := some 100000000, err := "context deadline exceeded" }

/-- Turns of `Client.PollFinal` in which every request takes 50 ms and brings the answer. -/
def answeredTurns : List PollTurn :=
  [{ wake := 0, pickTick := false, outcome := pollAnswer, elapsed := 50000000 },
   { wake := 0, pickTick := false, outcome := pollAnswer, elapsed := 50000000 },
   { wake := 0, pickTick := false, outcome := pollAnswer, elapsed := 50000000 }]

/-! ## The session store and the dispatch of one message -/

/-- After `getSession` the map holds the session it returns, and nothing else changed. -/
theorem getSession_sess (b : Bot) (c : Int) :
    (b.getSession c).1.sess = Function.update b.sess c (some (b.sessionOf c)) := by
  unfold Bot.sessionOf Bot.getSession
  cases h : b.sess c with
  | none => simp
  | some s =>
    funext x
    by_cases hx : x = c
    · subst hx; simp [h]
    · simp [hx]

/-- A session present in the map is the one `getSession` returns. -/
theorem sessionOf_of_sess (b : Bot) (c : Int) (s : session) (h : b.sess c = some s) :
    b.sessionOf c = s := by
  simp [Bot.sessionOf, Bot.getSession, h]

theorem sessionOf_getSession (b : Bot) (c : Int) :
    (b.getSession c).1.sessionOf c = b.sessionOf c := by
  apply sessionOf_of_sess
  rw [getSession_sess]; simp

/-- The session map after `setState`. -/
theorem setState_sess (b : Bot) (c : Int) (st : userState) :
    (b.setState c st).sess =
      Function.update b.sess c (some { b.sessionOf c with State := st }) := by
  unfold Bot.setState
  simp [getSession_sess, Bot.sessionOf]

/-- The session map after `setToken`. -/
theorem setToken_sess (b : Bot) (c : Int) (t : String) :
    (b.setToken c t).sess =
      Function.update b.sess c (some { b.sessionOf c with Token := t }) := by
  unfold Bot.setToken
  simp [getSession_sess, Bot.sessionOf]

/-- The session map after `setLogin`. -/
theorem setLogin_sess (b : Bot) (c : Int) (t : String) :
    (b.setLogin c t).sess =
      Function.update b.sess c (some { b.sessionOf c with LoginCache := t }) := by
  unfold Bot.setLogin
  simp [getSession_sess, Bot.sessionOf]

theorem sessionOf_setState (b : Bot) (c : Int) (st : userState) :
    (b.setState c st).sessionOf c = { b.sessionOf c with State := st } := by
  apply sessionOf_of_sess
  rw [setState_sess]; simp

theorem sessionOf_setToken (b : Bot) (c : Int) (t : String) :
    (b.setToken c t).sessionOf c = { b.sessionOf c with Token := t } := by
  apply sessionOf_of_sess
  rw [setToken_sess]; simp

theorem sessionOf_setLogin (b : Bot) (c : Int) (t : String) :
    (b.setLogin c t).sessionOf c = { b.sessionOf c with LoginCache := t } := by
  apply sessionOf_of_sess
  rw [setLogin_sess]; simp

/-- What `doLogin` does to the session map, and when it returns no error: it stores the issued
token, if there is one, and changes nothing otherwise. -/
theorem doLogin_sess (b : Bot) (c : Int) (login password : String) (lo : LoginOutcome) :
    (b.doLogin c login password lo).1.sess =
      (match lo.issuedToken with
       | some token => Function.update b.sess c (some { b.sessionOf c with Token := token })
       | none => b.sess) ∧
    ((b.doLogin c login password lo).2.1 = none ↔ lo.issuedToken ≠ none) := by
  cases lo with
  | newRequestErr err => simp [Bot.doLogin, LoginOutcome.issuedToken]
  | doErr err => simp [Bot.doLogin, LoginOutcome.issuedToken]
  | response StatusCode Status body =>
    cases body with
    | error err =>
      by_cases h : StatusCode = 200 <;> simp [Bot.doLogin, LoginOutcome.issuedToken, h]
    | ok lr =>
      by_cases h : StatusCode = 200 <;> by_cases h2 : lr.Token = "" <;>
        simp [Bot.doLogin, LoginOutcome.issuedToken, h, h2, setToken_sess]

/-- Handling a text message changes the session map at the chat of the message only, where it
puts what the transition table gives. -/
theorem handleUpdate_sess (b : Bot) (c : Int) (raw : String) (lo : LoginOutcome)
    (ao : AskOutcome) :
    (b.handleUpdate { Message := some { ChatID := c, Text := raw } } lo ao).1.sess =
      Function.update b.sess c
        (some (tableNext (TrimSpace raw) (b.sessionOf c) lo.issuedToken)) := by
  unfold Bot.handleUpdate tableNext
  simp only
  by_cases hp : HasPrefix (TrimSpace raw) "/start" = true
  · simp [hp, Bot.handleStart, setState_sess]
  · simp only [hp]
    have hg : b.getSession c = ((b.getSession c).1, b.sessionOf c) := rfl
    rw [hg]
    simp only [Bool.false_eq_true, if_false]
    have hs1 : (b.getSession c).1.sessionOf c = b.sessionOf c := sessionOf_getSession b c
    cases hst : (b.sessionOf c).State with
    | stateIdle =>
      simp [Bot.handleStart, setState_sess, getSession_sess, hs1]
    | stateAwaitLogin =>
      simp [setState_sess, setLogin_sess, getSession_sess, hs1, sessionOf_setLogin]
    | stateAwaitPassword =>
      simp only
      have hd := doLogin_sess (b.getSession c).1 c (b.sessionOf c).LoginCache (TrimSpace raw) lo
      generalize (b.getSession c).1.doLogin c (b.sessionOf c).LoginCache (TrimSpace raw) lo = r
        at hd
      obtain ⟨b2, e, evs⟩ := r
      obtain ⟨hd1, hd2⟩ := hd
      simp only at hd1 hd2
      have hcases : ∀ x : session, b2.sess c = some x → b2.sessionOf c = x :=
        fun x hx => sessionOf_of_sess b2 c x hx
      cases hi : lo.issuedToken with
      | none =>
        rw [hi] at hd1 hd2
        cases e with
        | none => simp at hd2
        | some err =>
          have h3 : b2.sessionOf c = b.sessionOf c := by
            apply hcases; rw [hd1, getSession_sess]; simp
          simp [setState_sess, hd1, h3, getSession_sess]
      | some token =>
        rw [hi] at hd1 hd2
        cases e with
        | some err => simp at hd2
        | none =>
          have h3 : b2.sessionOf c = { b.sessionOf c with Token := token } := by
            apply hcases; rw [hd1]; simp [hs1]
          simp [setState_sess, hd1, h3, getSession_sess]
    | stateReady =>
      simp only
      by_cases ht : (b.sessionOf c).Token = ""
      · simp [ht, setState_sess, getSession_sess, hs1]
      · simp [ht, getSession_sess]

/-- An issued token is not empty. -/
theorem issuedToken_ne_empty (lo : LoginOutcome) (t : String)
    (h : lo.issuedToken = some t) : t ≠ "" := by
  cases lo with
  | newRequestErr err => simp [LoginOutcome.issuedToken] at h
  | doErr err => simp [LoginOutcome.issuedToken] at h
  | response StatusCode Status body =>
    cases body with
    | error err => simp [LoginOutcome.issuedToken] at h
    | ok lr =>
      simp only [LoginOutcome.issuedToken] at h
      split at h
      · rename_i hc
        simp at h
        rw [← h]; exact hc.2
      · simp at h

/-- The only events of `doLogin` are login requests. -/
theorem doLogin_events (b : Bot) (c : Int) (login password : String) (lo : LoginOutcome)
    (e : Event) (he : e ∈ (b.doLogin c login password lo).2.2) :
    ∃ ep p, e = Event.loginRequest ep p := by
  cases lo with
  | newRequestErr err => simp [Bot.doLogin] at he
  | doErr err => simp [Bot.doLogin] at he; exact ⟨_, _, he⟩
  | response StatusCode Status body =>
    cases body with
    | error err =>
      by_cases h : StatusCode = 200 <;> simp [Bot.doLogin, h] at he <;> exact ⟨_, _, he⟩
    | ok lr =>
      by_cases h : StatusCode = 200 <;> by_cases h2 : lr.Token = "" <;>
        simp [Bot.doLogin, h, h2] at he <;> exact ⟨_, _, he⟩

/-- Every call of `handleQuestion` starts with its ask request. -/
theorem handleQuestion_head (b : Bot) (c : Int) (token question : String) (ao : AskOutcome) :
    ∃ rest, b.handleQuestion c token question ao =
      Event.askRequest (TrimRightSlash b.cfg.ImzoAPIBase ++ "/ask") token
        { ChatRoomID := b.cfg.ImzoChatRoomID, Request := question } :: rest := by
  cases ao with
  | doErr err => exact ⟨_, rfl⟩
  | response StatusCode Status bodyErr bodyOK =>
    unfold Bot.handleQuestion
    simp only
    split
    · split <;> exact ⟨_, rfl⟩
    · split
      · exact ⟨_, rfl⟩
      · split
        · exact ⟨_, rfl⟩
        · exact ⟨_, rfl⟩

/-- Claim C3. Handling one inbound text issues the `POST /ask` of `handleQuestion` exactly when
the session of the chat is in `stateReady`, its token is not empty and the trimmed text does not
begin with `/start`; so a session that is not in `stateReady` never reaches `handleQuestion`. -/
theorem question_only_when_ready (b : Bot) (c : Int) (raw : String) (lo : LoginOutcome)
    (ao : AskOutcome) :
    (∃ ep tok p, Event.askRequest ep tok p ∈
        (b.handleUpdate { Message := some { ChatID := c, Text := raw } } lo ao).2) ↔
      ((b.sessionOf c).State = stateReady ∧ (b.sessionOf c).Token ≠ "" ∧
        HasPrefix (TrimSpace raw) "/start" = false) := by
  unfold Bot.handleUpdate
  simp only
  by_cases hp : HasPrefix (TrimSpace raw) "/start" = true
  · simp [hp, Bot.handleStart]
  · simp only [hp]
    have hg : b.getSession c = ((b.getSession c).1, b.sessionOf c) := rfl
    rw [hg]
    simp only [Bool.false_eq_true, if_false]
    cases hst : (b.sessionOf c).State with
    | stateIdle => simp [Bot.handleStart]
    | stateAwaitLogin => simp
    | stateAwaitPassword =>
      simp only
      have hev := doLogin_events (b.getSession c).1 c (b.sessionOf c).LoginCache
        (TrimSpace raw) lo
      generalize (b.getSession c).1.doLogin c (b.sessionOf c).LoginCache (TrimSpace raw) lo = r
        at hev
      obtain ⟨b2, e, evs⟩ := r
      simp only at hev
      constructor
      · rintro ⟨ep, tok, p, hmem⟩
        exfalso
        cases e with
        | none =>
          simp at hmem
          obtain ⟨ep2, p2, h2⟩ := hev _ hmem
          cases h2
        | some err =>
          simp at hmem
          obtain ⟨ep2, p2, h2⟩ := hev _ hmem
          cases h2
      · rintro ⟨h, _⟩
        cases h
    | stateReady =>
      simp only
      by_cases ht : (b.sessionOf c).Token = ""
      · simp [ht]
      · obtain ⟨rest, hrest⟩ := handleQuestion_head (b.getSession c).1 c (b.sessionOf c).Token
          (TrimSpace raw) ao
        simp only [ht, if_false, hrest]
        constructor
        · intro _
          simp [ht, hp]
        · intro _
          exact ⟨_, _, _, List.mem_cons_self _ _⟩

/-- A step of the table that ends in `stateReady` ends with a token. -/
theorem tableNext_ready (text : String) (s : session) (issued : Option String)
    (hi : ∀ t, issued = some t → t ≠ "")
    (h : (tableNext text s issued).State = stateReady) :
    (tableNext text s issued).Token ≠ "" := by
  unfold tableNext at h ⊢
  by_cases hp : HasPrefix text "/start" = true
  · simp [hp] at h
  · simp only [hp, Bool.false_eq_true, if_false] at h ⊢
    cases hst : s.State with
    | stateIdle => simp [hst] at h
    | stateAwaitLogin => simp [hst] at h
    | stateAwaitPassword =>
      cases issued with
      | none => simp [hst] at h
      | some t => simpa [hst] using hi t rfl
    | stateReady =>
      by_cases ht : s.Token = ""
      · simp [hst, ht] at h
      · simp [hst, ht]

/-- Handling an update keeps `ReadyHasToken`. -/
theorem handleUpdate_ReadyHasToken (b : Bot) (u : Update) (lo : LoginOutcome)
    (ao : AskOutcome) (h : ReadyHasToken b) : ReadyHasToken (b.handleUpdate u lo ao).1 := by
  obtain ⟨m⟩ := u
  cases m with
  | none => exact h
  | some m =>
    obtain ⟨c, raw⟩ := m
    intro c' s hs hst
    rw [handleUpdate_sess] at hs
    by_cases hc : c' = c
    · subst hc
      simp at hs
      subst hs
      exact tableNext_ready _ _ _ (issuedToken_ne_empty lo) hst
    · rw [Function.update_noteq hc] at hs
      exact h c' s hs hst

/-- `Run` keeps `ReadyHasToken`. -/
theorem Run_ReadyHasToken (inputs : List RunSelect) (b : Bot) (h : ReadyHasToken b) :
    ReadyHasToken (b.Run inputs).1 := by
  induction inputs generalizing b with
  | nil => exact h
  | cons x rest ih =>
    cases x with
    | ctxDone => exact h
    | update u lo ao =>
      simp only [Bot.Run]
      exact ih _ (handleUpdate_ReadyHasToken b u lo ao h)

/-- Claim C1, amended. In every bot reached from `newBot` by any sequence of updates, with any
backend outcome, a session that is in `stateReady` holds a token that is not empty. -/
theorem ready_session_has_token (cfg : Config) (inputs : List RunSelect) (c : Int)
    (s : session) (hs : ((newBot cfg).Run inputs).1.sess c = some s)
    (hst : s.State = stateReady) : s.Token ≠ "" :=
  Run_ReadyHasToken inputs (newBot cfg) (fun _ _ h => by simp [newBot] at h) c s hs hst

/-- Claim C2, amended. When a session is in `stateAwaitPassword`, the text is not a `/start`
command and `doLogin` returns an error, handling the message leaves the session in `stateIdle`
with its cached login and its token as they were. -/
theorem failed_login_returns_to_idle (b : Bot) (c : Int) (raw : String) (lo : LoginOutcome)
    (ao : AskOutcome) (s : session) (hs : b.sess c = some s)
    (hst : s.State = stateAwaitPassword)
    (hp : HasPrefix (TrimSpace raw) "/start" = false)
    (herr : (b.doLogin c s.LoginCache (TrimSpace raw) lo).2.1 ≠ none) :
    (b.handleUpdate { Message := some { ChatID := c, Text := raw } } lo ao).1.sess c =
      some { State := stateIdle, LoginCache := s.LoginCache, Token := s.Token } := by
  have hi : lo.issuedToken = none := by
    by_contra hne
    exact herr ((doLogin_sess b c s.LoginCache (TrimSpace raw) lo).2.mpr hne)
  rw [handleUpdate_sess, sessionOf_of_sess b c s hs]
  simp [tableNext, hp, hst, hi]

/-- The session `getSession` returns is the stored one, or a fresh idle one when the map has
none for the chat. -/
theorem sessionOf_eq_stored (b : Bot) (c : Int) :
    b.sessionOf c =
      (b.sess c).getD { State := stateIdle, LoginCache := "", Token := "" } := by
  cases h : b.sess c with
  | none => simp [Bot.sessionOf, Bot.getSession, h]
  | some s => simp [Bot.sessionOf, Bot.getSession, h]

/-- Claim C9. The dispatch of `Bot.Run` on one text message is the transition table: whatever
session the map holds for the chat (a fresh idle one when it holds none), afterwards the map
holds for that chat what `tableNext` gives for it on the trimmed text, the login counting as a
success exactly when `doLogin` returns no error; and no other session changes. -/
theorem dispatch_equals_transition_table (b : Bot) (c : Int) (raw : String)
    (lo : LoginOutcome) (ao : AskOutcome) :
    (b.handleUpdate { Message := some { ChatID := c, Text := raw } } lo ao).1.sess c =
        some (tableNext (TrimSpace raw)
          ((b.sess c).getD { State := stateIdle, LoginCache := "", Token := "" })
          lo.issuedToken) ∧
    (∀ c2, c2 ≠ c →
      (b.handleUpdate { Message := some { ChatID := c, Text := raw } } lo ao).1.sess c2 =
        b.sess c2) ∧
    (∀ login password, (b.doLogin c login password lo).2.1 = none ↔
        lo.issuedToken ≠ none) := by
  refine ⟨?_, ?_, ?_⟩
  · rw [handleUpdate_sess, sessionOf_eq_stored]; simp
  · intro c2 hc
    rw [handleUpdate_sess, Function.update_noteq hc]
  · intro login password
    exact (doLogin_sess b c login password lo).2

/-! ## The response poller -/

/-- A context that is done stays done. -/
theorem ctxIsDone_mono (doneAt : Option Nat) (cancelled : Bool) (t t2 : Nat)
    (h : ctxIsDone doneAt cancelled t = true) (ht : t ≤ t2) :
    ctxIsDone doneAt cancelled t2 = true := by
  unfold ctxIsDone at h ⊢
  cases cancelled with
  | true => simp
  | false =>
    cases doneAt with
    | none => simp at h
    | some d =>
      simp at h ⊢
      omega

/-- The `select` takes its case no earlier than the loop reaches it. -/
theorem selectTime_ge (doneAt : Option Nat) (cancelled : Bool) (next now wake : Nat) :
    now ≤ selectTime doneAt cancelled next now wake := by
  unfold selectTime
  split
  · omega
  · rename_i hr
    simp only [Bool.or_eq_true, not_or, decide_eq_true_eq] at hr
    cases doneAt with
    | none => simp only; omega
    | some d =>
      have hd : ¬ d ≤ now := by
        intro hle
        apply hr.1
        simp [ctxIsDone, hle]
      simp only
      have := Nat.le_min.mpr
        ⟨Nat.le_of_lt (Nat.lt_of_not_le hd), Nat.le_of_lt (Nat.lt_of_not_le hr.2)⟩
      omega

/-- When the `select` takes its case, one of the two is ready. -/
theorem selectTime_ready (doneAt : Option Nat) (cancelled : Bool) (next now wake : Nat) :
    ctxIsDone doneAt cancelled (selectTime doneAt cancelled next now wake) = true ∨
      next ≤ selectTime doneAt cancelled next now wake := by
  by_cases hr : (ctxIsDone doneAt cancelled now || decide (next ≤ now)) = true
  · have hge := selectTime_ge doneAt cancelled next now wake
    simp only [Bool.or_eq_true, decide_eq_true_eq] at hr
    rcases hr with hr | hr
    · exact Or.inl (ctxIsDone_mono _ _ _ _ hr hge)
    · exact Or.inr (le_trans hr hge)
  · unfold selectTime
    simp only [hr]
    cases doneAt with
    | none => right; simp
    | some d =>
      simp only [Bool.false_eq_true, if_false]
      by_cases hdn : d ≤ next
      · left
        simp [ctxIsDone, Nat.min_eq_left hdn]
      · right
        have : min d next = next := Nat.min_eq_right (by omega)
        omega

/-- The `select` takes `ctx.Done()` only when the context is done. -/
theorem selectCase_done (doneAt : Option Nat) (cancelled : Bool) (next now wake : Nat)
    (pick : Bool) (t : Nat)
    (h : selectCase doneAt cancelled next now wake pick = Selected.done t) :
    ctxIsDone doneAt cancelled t = true ∧ now ≤ t := by
  have hge := selectTime_ge doneAt cancelled next now wake
  unfold selectCase at h
  simp only at h
  split at h
  · rename_i hb
    simp only [Bool.and_eq_true] at hb
    split at h
    · cases h
    · injection h with h
      subst h
      exact ⟨hb.1, hge⟩
  · split at h
    · rename_i hd
      injection h with h
      subst h
      exact ⟨hd, hge⟩
    · cases h

/-- The `select` takes a tick only when one has fired, and over a context that is done only by
its random choice. -/
theorem selectCase_tick (doneAt : Option Nat) (cancelled : Bool) (next now wake : Nat)
    (pick : Bool) (t : Nat)
    (h : selectCase doneAt cancelled next now wake pick = Selected.tick t) :
    next ≤ t ∧ now ≤ t ∧ (ctxIsDone doneAt cancelled t = true → pick = true) := by
  have hge := selectTime_ge doneAt cancelled next now wake
  have hrd := selectTime_ready doneAt cancelled next now wake
  unfold selectCase at h
  simp only at h
  split at h
  · rename_i hb
    simp only [Bool.and_eq_true, decide_eq_true_eq] at hb
    split at h
    · rename_i hp
      injection h with h
      subst h
      exact ⟨hb.2, hge, fun _ => hp⟩
    · cases h
  · rename_i hb
    split at h
    · cases h
    · rename_i hd
      injection h with h
      subst h
      refine ⟨?_, hge, fun hd2 => absurd hd2 hd⟩
      rcases hrd with h1 | h1
      · exact absurd h1 hd
      · exact h1

/-- A tick without an answer neither cancels the context nor replies. -/
theorem pollTick_quiet (b : Bot) (chatID : Int) (endpoint id authHeader : String)
    (o : PollOutcome) (h : o.isAnswer = false) :
    (b.pollTick chatID endpoint id authHeader o).2 = false ∧
      ∀ c text, Event.reply c text ∉ (b.pollTick chatID endpoint id authHeader o).1 := by
  cases o with
  | newRequestErr err => simp [Bot.pollTick]
  | doErr err => simp [Bot.pollTick]
  | response StatusCode Status body =>
    cases body with
    | error err =>
      by_cases hs : StatusCode = 200 <;> simp [Bot.pollTick, hs]
    | ok fr =>
      by_cases hs : StatusCode = 200
      · have hb : TrimSpace fr.Response = "" := by
          simpa [PollOutcome.isAnswer, hs] using h
        simp [Bot.pollTick, hs, hb]
      · simp [Bot.pollTick, hs]

/-- The ticks lie on the grid of the period: after the `k`-th the next is the `k+1`-th or a later
one. -/
theorem nextTick_ge (P t k : Nat) (hP : 0 < P) (h : k * P ≤ t) :
    (k + 1) * P ≤ nextTick P t := by
  unfold nextTick
  have hk : k ≤ t / P := (Nat.le_div_iff_mul_le hP).mpr h
  exact Nat.mul_le_mul_right P (by omega)

/-- Without an answer the loop sends no reply. -/
theorem pollLoop_no_reply (b : Bot) (chatID : Int) (endpoint id authHeader : String)
    (P D : Nat) (turns : List PollTurn)
    (hq : ∀ turn ∈ turns, turn.outcome.isAnswer = false) (now next : Nat) (c : Int)
    (text : String) :
    Event.reply c text ∉
      (b.pollLoop chatID endpoint id authHeader P D now next false turns).events := by
  induction turns generalizing now next with
  | nil => simp [Bot.pollLoop]
  | cons turn rest ih =>
    unfold Bot.pollLoop
    cases hsel : selectCase (some D) false next now turn.wake turn.pickTick with
    | done t => simp
    | tick t =>
      have hq0 := pollTick_quiet b chatID endpoint id authHeader turn.outcome
        (hq turn (List.mem_cons_self _ _))
      simp only [hq0.1, Bool.or_false, List.mem_append, not_or]
      exact ⟨hq0.2 c text, ih (fun x hx => hq x (List.mem_cons_of_mem _ hx)) _ _⟩

/-- Without an answer the loop returns by turn `i`, if by then `k + i` periods cover the deadline
and the `select` of turn `i` prefers `ctx.Done()`; `k` counts the ticks received before. -/
theorem pollLoop_returns (b : Bot) (chatID : Int) (endpoint id authHeader : String)
    (P D : Nat) (hP : 0 < P) (turns : List PollTurn)
    (hq : ∀ turn ∈ turns, turn.outcome.isAnswer = false) (now next k i : Nat)
    (hnext : (k + 1) * P ≤ next) (hnow : k * P ≤ now)
    (turn : PollTurn) (hi : turns[i]? = some turn) (hpick : turn.pickTick = false)
    (hD : D ≤ (k + i) * P) :
    (b.pollLoop chatID endpoint id authHeader P D now next false turns).returned = true ∧
    (b.pollLoop chatID endpoint id authHeader P D now next false turns).ticks ≤ i ∧
    D ≤ (b.pollLoop chatID endpoint id authHeader P D now next false turns).now := by
  induction turns generalizing now next k i with
  | nil => simp at hi
  | cons turn0 rest ih =>
    unfold Bot.pollLoop
    cases hsel : selectCase (some D) false next now turn0.wake turn0.pickTick with
    | done t =>
      have hd := (selectCase_done _ _ _ _ _ _ _ hsel).1
      simp only [ctxIsDone, Bool.false_or, decide_eq_true_eq] at hd
      simp [hd]
    | tick t =>
      obtain ⟨h1, h2, h3⟩ := selectCase_tick _ _ _ _ _ _ _ hsel
      have hq0 := pollTick_quiet b chatID endpoint id authHeader turn0.outcome
        (hq turn0 (List.mem_cons_self _ _))
      simp only [hq0.1, Bool.or_false]
      cases i with
      | zero =>
        exfalso
        simp only [List.getElem?_cons_zero, Option.some.injEq] at hi
        subst hi
        have hdone : ctxIsDone (some D) false t = true := by
          simp only [ctxIsDone, Bool.false_or, decide_eq_true_eq]
          simp only [Nat.add_zero] at hD
          omega
        rw [h3 hdone] at hpick
        cases hpick
      | succ j =>
        simp only [List.getElem?_cons_succ] at hi
        have hk1 : (k + 1) * P ≤ t := le_trans hnext h1
        have := ih (fun x hx => hq x (List.mem_cons_of_mem _ hx)) (t + turn0.elapsed)
          (nextTick P t) (k + 1) j (nextTick_ge P t (k + 1) hP hk1) (by omega) hi
          (by rw [show k + 1 + j = k + (j + 1) by omega]; exact hD)
        exact ⟨this.1, by omega, this.2.2⟩

/-- More than `D / P` periods cover the deadline `D`. -/
theorem deadline_lt (P D n : Nat) (hP : 0 < P) (hn : D / P + 1 ≤ n) : D ≤ n * P := by
  have h1 : D < (D / P + 1) * P := by
    have := Nat.div_add_mod D P
    have := Nat.mod_lt D hP
    rw [Nat.add_mul, Nat.one_mul, Nat.mul_comm]
    omega
  have h2 : (D / P + 1) * P ≤ n * P := Nat.mul_le_mul_right P hn
  omega

/-- With a positive period `pollFinalAndReply` is its loop, started at time 0 with the first tick
one period later. -/
theorem pollFinalAndReply_eq (b : Bot) (chatID : Int) (userToken id : String)
    (turns : List PollTurn) (hP : 0 < b.cfg.PollInterval) :
    b.pollFinalAndReply chatID userToken id turns =
      some (b.pollLoop chatID (TrimRightSlash b.cfg.ImzoAPIBase ++ "/get/gpt/responce") id
        (if TrimSpace b.cfg.GatewayAuthBearer = "" then userToken
          else TrimSpace b.cfg.GatewayAuthBearer)
        b.cfg.PollInterval.toNat b.cfg.PollTimeout.toNat 0 b.cfg.PollInterval.toNat false
        turns) := by
  have hnot : ¬ b.cfg.PollInterval ≤ 0 := not_le.mpr hP
  simp only [Bot.pollFinalAndReply, hnot, if_false]

/-- Claim C5, amended. A poller whose ticker period is positive and whose poll outcomes never
carry an answer sends no reply, however far it runs; and when the `select` does not take the
tick for ever once both of its cases are ready, it returns, at or after the deadline
`PollTimeout`, having received finitely many ticks. -/
theorem poller_without_answer_times_out (b : Bot) (chatID : Int) (userToken id : String)
    (env : Nat → PollTurn) (hP : 0 < b.cfg.PollInterval)
    (hquiet : ∀ n, (env n).outcome.isAnswer = false)
    (hfair : ∀ m, ∃ n, m ≤ n ∧ (env n).pickTick = false) :
    (∀ n, ∃ r, b.pollFinalAndReply chatID userToken id ((List.range n).map env) = some r ∧
        ∀ c text, Event.reply c text ∉ r.events) ∧
    (∃ n r, b.pollFinalAndReply chatID userToken id ((List.range n).map env) = some r ∧
        r.returned = true ∧ r.ticks ≤ n ∧ b.cfg.PollTimeout ≤ r.now ∧
        ∀ c text, Event.reply c text ∉ r.events) := by
  have hnot : ¬ b.cfg.PollInterval ≤ 0 := not_le.mpr hP
  have hq : ∀ n, ∀ turn ∈ (List.range n).map env, turn.outcome.isAnswer = false := by
    intro n turn hmem
    obtain ⟨j, _, hj⟩ := List.mem_map.mp hmem
    rw [← hj]; exact hquiet j
  have hPn : 0 < b.cfg.PollInterval.toNat := by omega
  constructor
  · intro n
    refine ⟨_, pollFinalAndReply_eq b chatID userToken id _ hP, ?_⟩
    intro c text
    exact pollLoop_no_reply b chatID _ id _ _ _ _ (hq n) 0 _ c text
  · obtain ⟨n, hn, hpick⟩ := hfair (b.cfg.PollTimeout.toNat / b.cfg.PollInterval.toNat + 1)
    have hi : ((List.range (n + 1)).map env)[n]? = some (env n) := by
      simp [List.getElem?_range]
    have hret := pollLoop_returns b chatID
      (TrimRightSlash b.cfg.ImzoAPIBase ++ "/get/gpt/responce") id
      (if TrimSpace b.cfg.GatewayAuthBearer = "" then userToken
        else TrimSpace b.cfg.GatewayAuthBearer)
      b.cfg.PollInterval.toNat b.cfg.PollTimeout.toNat hPn _ (hq (n + 1)) 0
      b.cfg.PollInterval.toNat 0 n (by omega) (by omega) (env n) hi hpick
      (by rw [Nat.zero_add]; exact deadline_lt _ _ _ hPn hn)
    refine ⟨n + 1, _, pollFinalAndReply_eq b chatID userToken id _ hP, hret.1,
      by have := hret.2.1; omega, ?_, ?_⟩
    · have := hret.2.2
      omega
    · intro c text
      exact pollLoop_no_reply b chatID _ id _ _ _ _ (hq (n + 1)) 0 _ c text


/-- A `select` that prefers the tick takes it whenever one has fired by the time the loop comes
back, or fires no later than the deadline of a context that is not cancelled. -/
theorem selectCase_busy (D : Nat) (cancelled : Bool) (next now wake : Nat)
    (h : next ≤ now ∨ (cancelled = false ∧ next ≤ D)) :
    ∃ t, selectCase (some D) cancelled next now wake true = Selected.tick t ∧ next ≤ t := by
  have hge := selectTime_ge (some D) cancelled next now wake
  have hnext : next ≤ selectTime (some D) cancelled next now wake := by
    rcases h with h | ⟨hc, h⟩
    · omega
    · subst hc
      unfold selectTime
      by_cases hr : (ctxIsDone (some D) false now || decide (next ≤ now)) = true
      · simp only [hr, if_true]
        simp only [ctxIsDone, Bool.false_or, Bool.or_eq_true, decide_eq_true_eq] at hr
        omega
      · simp only [hr]
        simp only [Bool.false_eq_true, if_false]
        have : min D next = next := Nat.min_eq_right h
        omega
  refine ⟨selectTime (some D) cancelled next now wake, ?_, hnext⟩
  unfold selectCase
  by_cases hd : ctxIsDone (some D) cancelled (selectTime (some D) cancelled next now wake) = true
  · simp [hd, hnext]
  · simp [hd]

/-- The next tick fires at most one period after the last one was received. -/
theorem nextTick_le (P t : Nat) : nextTick P t ≤ t + P := by
  unfold nextTick
  have := Nat.div_mul_le_self t P
  rw [Nat.add_mul, Nat.one_mul]
  omega

/-- When every request lasts a period or more and the `select` prefers the tick every time, the
loop never takes `ctx.Done()`: it receives a tick in every turn and has not returned. -/
theorem pollLoop_busy (b : Bot) (chatID : Int) (endpoint id authHeader : String)
    (P D : Nat) (turns : List PollTurn)
    (hbusy : ∀ turn ∈ turns, turn.pickTick = true ∧ P ≤ turn.elapsed)
    (now next : Nat) (cancelled : Bool)
    (h : next ≤ now ∨ (cancelled = false ∧ next ≤ D)) :
    (b.pollLoop chatID endpoint id authHeader P D now next cancelled turns).returned = false ∧
    (b.pollLoop chatID endpoint id authHeader P D now next cancelled turns).ticks =
      turns.length := by
  induction turns generalizing now next cancelled with
  | nil => simp [Bot.pollLoop]
  | cons turn rest ih =>
    have hb := hbusy turn (List.mem_cons_self _ _)
    obtain ⟨t, ht, hnt⟩ := selectCase_busy D cancelled next now turn.wake h
    unfold Bot.pollLoop
    rw [hb.1, ht]
    have hle := nextTick_le P t
    have := ih (fun x hx => hbusy x (List.mem_cons_of_mem _ hx)) (t + turn.elapsed)
      (nextTick P t) (cancelled || (b.pollTick chatID endpoint id authHeader turn.outcome).2)
      (Or.inl (by omega))
    simp only [List.length_cons]
    exact ⟨this.1, by rw [this.2]⟩

/-- A poller whose period fits in its timeout never returns in a world where every request lasts
a period or more and the `select` prefers the tick every time. -/
theorem poller_busy_never_returns (b : Bot) (chatID : Int) (userToken id : String)
    (world : Nat → PollTurn) (hP : 0 < b.cfg.PollInterval)
    (hD : b.cfg.PollInterval ≤ b.cfg.PollTimeout)
    (hbusy : ∀ n, (world n).pickTick = true ∧ b.cfg.PollInterval ≤ (world n).elapsed)
    (n : Nat) :
    ∃ r, b.pollFinalAndReply chatID userToken id ((List.range n).map world) = some r ∧
      r.returned = false ∧ r.ticks = n := by
  refine ⟨_, pollFinalAndReply_eq b chatID userToken id _ hP, ?_⟩
  have := pollLoop_busy b chatID (TrimRightSlash b.cfg.ImzoAPIBase ++ "/get/gpt/responce") id
    (if TrimSpace b.cfg.GatewayAuthBearer = "" then userToken
      else TrimSpace b.cfg.GatewayAuthBearer)
    b.cfg.PollInterval.toNat b.cfg.PollTimeout.toNat ((List.range n).map world)
    (by
      intro turn hmem
      obtain ⟨j, _, hj⟩ := List.mem_map.mp hmem
      have := hbusy j
      rw [← hj]
      exact ⟨this.1, by omega⟩)
    0 b.cfg.PollInterval.toNat false (Or.inr ⟨rfl, by omega⟩)
  simpa using this

/-- Over a cancelled context a `select` that prefers `ctx.Done()` takes it. -/
theorem selectCase_cancelled (doneAt : Option Nat) (next now wake : Nat) :
    ∃ t, selectCase doneAt true next now wake false = Selected.done t := by
  unfold selectCase
  simp [ctxIsDone]

/-- A tick with an answer makes its request, replies with the answer and cancels the context. -/
theorem pollTick_answer (b : Bot) (chatID : Int) (endpoint id authHeader Status : String)
    (fr : finalResp) (h : TrimSpace fr.Response ≠ "") :
    b.pollTick chatID endpoint id authHeader (.response 200 Status (.ok fr)) =
      ([Event.pollRequest endpoint id authHeader, Event.reply chatID fr.Response], true) := by
  simp [Bot.pollTick, h]

/-- A tick without an answer does not cancel the context and has no reply among its events. -/
theorem pollTick_replies_quiet (b : Bot) (chatID : Int) (endpoint id authHeader : String)
    (o : PollOutcome) (h : o.isAnswer = false) :
    (b.pollTick chatID endpoint id authHeader o).2 = false ∧
      (b.pollTick chatID endpoint id authHeader o).1.filter Event.isReply = [] := by
  cases o with
  | newRequestErr err => simp [Bot.pollTick]
  | doErr err => simp [Bot.pollTick, Event.isReply]
  | response StatusCode Status body =>
    cases body with
    | error err =>
      by_cases hs : StatusCode = 200 <;> simp [Bot.pollTick, hs, Event.isReply]
    | ok fr =>
      by_cases hs : StatusCode = 200
      · have hb : TrimSpace fr.Response = "" := by
          simpa [PollOutcome.isAnswer, hs] using h
        simp [Bot.pollTick, hs, hb, Event.isReply]
      · simp [Bot.pollTick, hs, Event.isReply]

/-- When the `select` that follows the answering tick takes `ctx.Done()`, the poller returns
having sent at most the one reply of that tick and received no tick after it. -/
theorem pollLoop_single_reply (b : Bot) (chatID : Int) (endpoint id authHeader : String)
    (P D : Nat) (pre : List PollTurn) (answer last : PollTurn) (rest : List PollTurn)
    (Status : String) (fr : finalResp)
    (hpre : ∀ turn ∈ pre, turn.outcome.isAnswer = false)
    (hans : answer.outcome = .response 200 Status (.ok fr)) (hfr : TrimSpace fr.Response ≠ "")
    (hlast : last.pickTick = false) (now next : Nat) :
    (b.pollLoop chatID endpoint id authHeader P D now next false
        (pre ++ answer :: last :: rest)).returned = true ∧
    (b.pollLoop chatID endpoint id authHeader P D now next false
        (pre ++ answer :: last :: rest)).ticks ≤ pre.length + 1 ∧
    ((b.pollLoop chatID endpoint id authHeader P D now next false
        (pre ++ answer :: last :: rest)).events.filter Event.isReply = [] ∨
     (b.pollLoop chatID endpoint id authHeader P D now next false
        (pre ++ answer :: last :: rest)).events.filter Event.isReply =
          [Event.reply chatID fr.Response]) := by
  induction pre generalizing now next with
  | nil =>
    simp only [List.nil_append, List.length_nil]
    unfold Bot.pollLoop
    cases hsel : selectCase (some D) false next now answer.wake answer.pickTick with
    | done t => simp
    | tick t =>
      simp only [hans, pollTick_answer b chatID endpoint id authHeader Status fr hfr,
        Bool.or_true]
      unfold Bot.pollLoop
      obtain ⟨t2, ht2⟩ := selectCase_cancelled (some D) (nextTick P t) (t + answer.elapsed)
        last.wake
      rw [hlast, ht2]
      simp [Event.isReply]
  | cons turn pre ih =>
    simp only [List.cons_append, List.length_cons]
    unfold Bot.pollLoop
    cases hsel : selectCase (some D) false next now turn.wake turn.pickTick with
    | done t => simp
    | tick t =>
      have hq0 := pollTick_replies_quiet b chatID endpoint id authHeader turn.outcome
        (hpre turn (List.mem_cons_self _ _))
      have := ih (fun x hx => hpre x (List.mem_cons_of_mem _ hx)) (t + turn.elapsed)
        (nextTick P t)
      simp only [hq0.1, Bool.or_false, List.filter_append, hq0.2, List.nil_append]
      exact ⟨this.1, by omega, this.2.2⟩

/-! ## The claims on concrete inputs -/

/-- Claim C1, the witness of the amended statement: chat 7 after its login. -/
theorem ready_session_has_token_witness :
    ((newBot exampleConfig).Run logIn).1.sess 7 =
        some { State := stateReady, LoginCache := "+998901234567", Token := "T" } ∧
      (session.mk stateReady "+998901234567" "T").Token ≠ "" :=
  ⟨by decide,
   ready_session_has_token exampleConfig logIn 7
     { State := stateReady, LoginCache := "+998901234567", Token := "T" } (by decide) rfl⟩

/-- Claim C1 fails as stated: after a login and a further `/start` the session of chat 7 holds
the token `T` and is in `stateAwaitLogin`, so a token that is not empty does not imply
`stateReady`. -/
theorem token_outlives_ready :
    ∃ s, ((newBot exampleConfig).Run logInThenStart).1.sess 7 = some s ∧
      ¬ (s.Token ≠ "" ↔ s.State = stateReady) :=
  ⟨{ State := stateAwaitLogin, LoginCache := "+998901234567", Token := "T" },
   by decide, by decide⟩

/-- Claim C2, the witness of the amended statement: chat 7 sends a password the backend
refuses. -/
theorem failed_login_returns_to_idle_witness :
    (awaitingPasswordBot.handleUpdate (textFrom7 "wrongpass") loginRefused askUnused).1.sess 7 =
      some { State := stateIdle, LoginCache := "+998901234567", Token := "" } :=
  failed_login_returns_to_idle awaitingPasswordBot 7 "wrongpass" loginRefused askUnused
    { State := stateAwaitPassword, LoginCache := "+998901234567", Token := "" }
    (by decide) rfl (by decide) (by decide)

/-- Claim C2 fails as stated: after the refused login the session of chat 7 is in `stateIdle`
and still holds the login cached before, which is not empty. -/
theorem failed_login_keeps_login_cache :
    ∃ s, ((newBot exampleConfig).Run logInRefused).1.sess 7 = some s ∧
      s.State = stateIdle ∧ s.LoginCache = "+998901234567" ∧ s.LoginCache ≠ "" :=
  ⟨{ State := stateIdle, LoginCache := "+998901234567", Token := "" },
   by decide, rfl, rfl, by decide⟩

/-- Claim C4 on a failing input: with a period of 3 s and a first request that takes 4 s and
brings the answer, the `select` finds both the cancelled context and the tick of 6 s ready; when
it takes the tick, the poller issues a second poll request and sends a second reply before it
returns. -/
theorem poller_polls_again_after_answer :
    (newBot exampleConfig).pollFinalAndReply 7 "T" "job1" raceTurns =
      some
        { events :=
            [Event.pollRequest "https://imzo-ai.uzjoylar.uz/get/gpt/responce" "job1" "T",
             Event.reply 7 "the answer",
             Event.pollRequest "https://imzo-ai.uzjoylar.uz/get/gpt/responce" "job1" "T",
             Event.reply 7 "the answer"]
          returned := true
          ticks := 2
          now := 8000000000 } := by
  decide

/-- Claim C5 fails as stated. With the default period of 3 s and timeout of 120 s, requests
that last 4 s and a `select` that takes the waiting tick every time, the poller has received 32
ticks and has not returned at 131 s, past its deadline; and with the interval of -1 s that
`mustConfig` accepts, `time.NewTicker` panics and the poller does not return at all. -/
theorem poller_polls_past_deadline :
    ((newBot exampleConfig).pollFinalAndReply 7 "T" "job1" busyTurns).map
        (fun r => (r.returned, r.ticks, r.now)) = some (false, 32, 131000000000) ∧
    exampleConfig.PollTimeout < 131000000000 ∧
    (newBot negativeIntervalConfig).pollFinalAndReply 7 "T" "job1" busyTurns = none := by
  decide

/-- Claim C5, the witness of the amended statement: the poller of chat 7 in a world with no
answer returns with no reply sent. -/
theorem poller_without_answer_times_out_witness :
    0 < (newBot exampleConfig).cfg.PollInterval ∧
      ∃ n r, (newBot exampleConfig).pollFinalAndReply 7 "T" "job1"
          ((List.range n).map quietWorld) = some r ∧
        r.returned = true ∧ r.ticks ≤ n ∧ (newBot exampleConfig).cfg.PollTimeout ≤ r.now ∧
        ∀ c text, Event.reply c text ∉ r.events :=
  ⟨by decide,
   (poller_without_answer_times_out (newBot exampleConfig) 7 "T" "job1" quietWorld (by decide)
     (fun _ => rfl) (fun m => ⟨m, le_refl m, rfl⟩)).2⟩

/-- In `handleQuestion` every decodable 200 response spawns a poller, whatever its job id. -/
theorem handleQuestion_always_spawns (b : Bot) (c : Int) (token question Status : String)
    (bodyErr : Except String askRespErr) (ok : askRespOK) :
    Event.spawnPoll c token ok.ID ∈
      b.handleQuestion c token question (.response 200 Status bodyErr (.ok ok)) := by
  simp [Bot.handleQuestion]

/-- Claim C6 on the failing input: the ready session of chat 7 sends `hello` and the backend
answers `hi there` with an empty job id; the bot relays the answer once and then spawns a poller
for the empty job id. -/
theorem immediate_answer_spawns_poller :
    (readyBot.handleUpdate (textFrom7 "hello") loginUnused askImmediate).2 =
      [Event.askRequest "https://imzo-ai.uzjoylar.uz/ask" "T"
         { ChatRoomID := "room-1", Request := "hello" },
       Event.reply 7 "hi there",
       Event.sleep 10000000000,
       Event.spawnPoll 7 "T" ""] := by
  decide

/-- Claim C7 fails as stated: for the rejection `bad question` the bot sends that text followed
by the prompt for a new question, and does not send the bare text. -/
theorem rejection_text_is_extended :
    (readyBot.handleUpdate (textFrom7 "hello") loginUnused askRejected).2 =
        [Event.askRequest "https://imzo-ai.uzjoylar.uz/ask" "T"
           { ChatRoomID := "room-1", Request := "hello" },
         Event.reply 7 "bad question\n\n*Yangi savolingizni yuboring.*"] ∧
      Event.reply 7 "bad question" ∉
        (readyBot.handleUpdate (textFrom7 "hello") loginUnused askRejected).2 := by
  decide

/-- Claim C7, amended. When a ready session with a token submits a question and the backend
answers 400 with a decodable body, the bot makes the ask request and sends one reply: the
message of the body, or the default text when that message is empty, followed by the prompt for a
new question; it spawns no poller and leaves every session as it was. -/
theorem rejection_relayed_with_prompt (b : Bot) (c : Int) (raw : String) (lo : LoginOutcome)
    (Status : String) (er : askRespErr) (bodyOK : Except String askRespOK) (s : session)
    (hs : b.sess c = some s) (hst : s.State = stateReady) (htok : s.Token ≠ "")
    (hp : HasPrefix (TrimSpace raw) "/start" = false) :
    (b.handleUpdate { Message := some { ChatID := c, Text := raw } } lo
        (.response 400 Status (.ok er) bodyOK)).1.sess = b.sess ∧
    (b.handleUpdate { Message := some { ChatID := c, Text := raw } } lo
        (.response 400 Status (.ok er) bodyOK)).2 =
      [Event.askRequest (TrimRightSlash b.cfg.ImzoAPIBase ++ "/ask") s.Token
         { ChatRoomID := b.cfg.ImzoChatRoomID, Request := TrimSpace raw },
       Event.reply c
         ((if er.Message = "" then defaultRejection else er.Message) ++ newQuestionSuffix)] := by
  simp [Bot.handleUpdate, hp, Bot.getSession, hs, hst, htok, Bot.handleQuestion]

/-- Claim C7, the witness of the amended statement: the ready session of chat 7. -/
theorem rejection_relayed_with_prompt_witness :
    (readyBot.handleUpdate (textFrom7 "hello") loginUnused askRejected).1.sess = readyBot.sess ∧
    (readyBot.handleUpdate (textFrom7 "hello") loginUnused askRejected).2 =
      [Event.askRequest (TrimRightSlash readyBot.cfg.ImzoAPIBase ++ "/ask") "T"
         { ChatRoomID := readyBot.cfg.ImzoChatRoomID, Request := TrimSpace "hello" },
       Event.reply 7
         ((if (askRespErr.mk "bad question" "error").Message = "" then defaultRejection
           else (askRespErr.mk "bad question" "error").Message) ++ newQuestionSuffix)] :=
  rejection_relayed_with_prompt readyBot 7 "hello" loginUnused "400 Bad Request"
    { Message := "bad question", Status := "error" } (.error "unused")
    { State := stateReady, LoginCache := "+998901234567", Token := "T" }
    (by decide) rfl (by decide) (by decide)

/-- Whatever `Client.PollFinal` returns is the empty string with the error of the context. -/
theorem pollLoop_result (c : imzo.Client) (ctx : imzo.Context)
    (endpoint id authHeader : String) (P : Nat) (turns : List PollTurn) (now next : Nat) :
    (c.pollLoop ctx endpoint id authHeader P now next turns).result = none ∨
      (c.pollLoop ctx endpoint id authHeader P now next turns).result =
        some ("", some ctx.err) := by
  induction turns generalizing now next with
  | nil => left; rfl
  | cons turn rest ih =>
    unfold imzo.Client.pollLoop
    cases selectCase ctx.doneAt false next now turn.wake turn.pickTick with
    | done t => right; rfl
    | tick t =>
      cases ho : turn.outcome with
      | newRequestErr err => left; rfl
      | doErr err => exact ih _ _
      | response StatusCode Status body => exact ih _ _

/-- Claim C8 on a failing input: every poll response carries the answer `the answer`, and the
context ends after 100 ms; `Client.PollFinal` goes on polling after the first answer and returns
the empty string with the error of the context. -/
theorem PollFinal_drops_answer :
    (imzo.NewClient (config.Load noEnv)).PollFinal shortContext "T" "job1" answeredTurns =
      some
        { events :=
            [Event.pollRequest "http://localhost:8080/get/gpt/responce" "job1" "T",
             Event.pollRequest "http://localhost:8080/get/gpt/responce" "job1" "T"]
          result := some ("", some "context deadline exceeded")
          panicked := false
          ticks := 2 } := by
  decide

/-- Claim C10 on the failing input: with the configuration `Load` gives in an empty environment
the ticker of `Client.PollFinal` has a period of 3 nanoseconds, not of 3 seconds, while
`NewClient` turns the 20 of `HTTPTimeoutSeconds` into 20 seconds and `mustConfig` takes 3 seconds
as its poll interval. -/
theorem PollFinal_period_in_nanoseconds :
    (config.Load noEnv).PollIntervalSec = 3 ∧
    (imzo.NewClient (config.Load noEnv)).tickerPeriod = 3 ∧
    (imzo.NewClient (config.Load noEnv)).tickerPeriod ≠ 3 * Second ∧
    (imzo.NewClient (config.Load noEnv)).Timeout = 20 * Second ∧
    (mustConfig requiredEnv (fun _ => none)).map Config.PollInterval = some (3 * Second) := by
  decide

end ImzoBot
